import Mathlib

/-!
Verification development for the cwtch-server repository.

This file shallowly embeds the parts of the Go source that the specification
claims are about:

* the base64 standard encoding used on the storage boundary
  (encoding/base64 StdEncoding, as called by storage/message_store.go);
* the sqlite-backed message store (storage/message_store.go): AddMessage,
  MessagesCount, FetchMessages, FetchMessagesFrom, with the messages table
  modelled as a list of rows (id INTEGER PRIMARY KEY AUTOINCREMENT,
  signature TEXT UNIQUE NOT NULL, ciphertext TEXT NOT NULL);
* the per-session message counter wiring of metrics/monitors.go
  (Monitors.Start installs a sampling closure that folds MessageCounter
  into TotalMessageCounter and resets it) and server.GetStatistics;
* the server facade (server.go): Run, Shutdown, CheckStatus, Delete,
  CheckPassword, HashName;
* the metrics ring helper rotateAndAccumulate (metrics/monitors.go),
  with float64 values idealised as rationals.

Mutation is modelled by explicit state passing; the sqlite database is
modelled by the list of rows in insertion order together with the
AUTOINCREMENT counter.
-/

namespace CwtchServer

/-! ## Base64 (encoding/base64 StdEncoding)

The store base64-encodes signatures and ciphertexts before insertion and
decodes them on fetch.  We embed the standard encoding: bytes are grouped
into 3-byte blocks, each block becomes four 6-bit values; a trailing 2-byte
block becomes three 6-bit values and one pad, a trailing 1-byte block two
6-bit values and two pads.  The pad is represented by the value 64, mapped
to the character =. -/

/-- Sextet-level base64 encoding of a byte list (pad encoded as 64). -/
def b64EncodeSextets : List Nat → List Nat
  | a :: b :: c :: rest =>
      let v := a * 65536 + b * 256 + c
      v / 262144 :: v / 4096 % 64 :: v / 64 % 64 :: v % 64 :: b64EncodeSextets rest
  | [a, b] =>
      let v := a * 65536 + b * 256
      [v / 262144, v / 4096 % 64, v / 64 % 64, 64]
  | [a] =>
      let v := a * 65536
      [v / 262144, v / 4096 % 64, 64, 64]
  | [] => []

/-- Sextet-level base64 decoding (pad is 64). -/
def b64DecodeSextets : List Nat → List Nat
  | s1 :: s2 :: s3 :: s4 :: rest =>
      if s4 = 64 then
        if s3 = 64 then
          [(s1 * 262144 + s2 * 4096) / 65536]
        else
          let v := s1 * 262144 + s2 * 4096 + s3 * 64
          [v / 65536, v / 256 % 256]
      else
        let v := s1 * 262144 + s2 * 4096 + s3 * 64 + s4
        v / 65536 :: v / 256 % 256 :: v % 256 :: b64DecodeSextets rest
  | _ => []

/-- The 64-character standard base64 alphabet. -/
def b64Alphabet : List Char :=
  "ABCDEFGHIJKLMNOPQRSTUVWXYZabcdefghijklmnopqrstuvwxyz0123456789+/".toList

/-- Character for a sextet value; 64 (and anything out of range) maps to the pad =. -/
def b64Chr (n : Nat) : Char := b64Alphabet.getD n '='

/-- Inverse character map: index in the alphabet, with the pad = mapping to 64. -/
def b64Inv (c : Char) : Nat := (b64Alphabet ++ ['=']).indexOf c

/-- base64.StdEncoding.EncodeToString, as a list of characters. -/
def base64StdEncode (bytes : List Nat) : List Char :=
  (b64EncodeSextets bytes).map b64Chr

/-- base64.StdEncoding.DecodeString (total: trailing garbage decodes to nothing,
mirroring the Go callers that ignore the decode error). -/
def base64StdDecode (s : List Char) : List Nat :=
  b64DecodeSextets (s.map b64Inv)

/-! ## Message store (storage/message_store.go, sqlite variant)

The messages table is modelled as a list of rows in insertion order plus the
AUTOINCREMENT counter.  The two TEXT columns hold the base64 encodings,
exactly as the prepared INSERT receives them.  The metrics counters that the
storage layer is wired to (the incMessageCounterFn closure increments
Monitors.MessageCounter, and the Messages monitor closure periodically folds
it into Monitors.TotalMessageCounter) are carried alongside the table so
that AddMessage can perform its callback as the first step, as in the
source. -/

/-- EncryptedGroupMessage: opaque record of signature and ciphertext bytes. -/
structure EncryptedGroupMessage where
  Signature : List Nat
  Ciphertext : List Nat
deriving DecidableEq

/-- One row of the messages table
(id INTEGER NOT NULL PRIMARY KEY AUTOINCREMENT, signature TEXT UNIQUE NOT NULL,
ciphertext TEXT NOT NULL). -/
structure StoredRow where
  id : Nat
  sigText : List Char
  ctText : List Char
deriving DecidableEq

/-- State of the sqlite message store plus the two metrics counters it feeds. -/
structure StoreState where
  rows : List StoredRow
  nextId : Nat
  messageCounter : Nat
  totalMessageCounter : Nat
deriving DecidableEq

/-- AddMessage: first invoke the injected incMessageCounterFn (it is non-nil in
the production wiring and increments the metrics MessageCounter), then drop the
message if its signature is empty, otherwise run the prepared INSERT; a UNIQUE
constraint violation on the signature column makes Exec return an error which
is logged and swallowed, leaving the table unchanged. -/
def AddMessage (s : StoreState) (message : EncryptedGroupMessage) : StoreState :=
  let s1 : StoreState := { s with messageCounter := s.messageCounter + 1 }
  if message.Signature.length = 0 then s1
  else
    let sigText := base64StdEncode message.Signature
    if s1.rows.any (fun r => r.sigText == sigText) then s1
    else { s1 with
            rows := s1.rows ++ [{ id := s1.nextId, sigText := sigText,
                                  ctText := base64StdEncode message.Ciphertext }],
            nextId := s1.nextId + 1 }

/-- MessagesCount: SELECT COUNT(*) from messages (success path). -/
def MessagesCount (s : StoreState) : Nat := s.rows.length

/-- compileRows: scan the result set and base64-decode both columns, ignoring
decode errors. -/
def compileRows (rows : List StoredRow) : List EncryptedGroupMessage :=
  rows.map fun r =>
    { Signature := base64StdDecode r.sigText, Ciphertext := base64StdDecode r.ctText }

/-- FetchMessages: SELECT id, signature, ciphertext from messages, in table
(insertion) order. -/
def FetchMessages (s : StoreState) : List EncryptedGroupMessage :=
  compileRows s.rows

/-- Result set of the prepared suffix query
SELECT id, signature, ciphertext FROM messages WHERE
id >= (SELECT id FROM messages WHERE signature=(?)).
When no row carries the given signature the scalar subquery yields NULL and
the comparison rejects every row, so the result set is empty. -/
def suffixRows (s : StoreState) (sigText : List Char) : List StoredRow :=
  match s.rows.find? (fun r => r.sigText == sigText) with
  | none => []
  | some r0 => s.rows.filter (fun r => r0.id ≤ r.id)

/-- FetchMessagesFrom: empty signature means a complete sync; otherwise run the
suffix query, and if it returns no messages at all (unknown or purged
signature) fall back to a full sync. -/
def FetchMessagesFrom (s : StoreState) (signature : List Nat) : List EncryptedGroupMessage :=
  if signature.length = 0 then FetchMessages s
  else
    let messages := compileRows (suffixRows s (base64StdEncode signature))
    if messages.length < 1 then FetchMessages s
    else messages

/-- Sampling closure installed by Monitors.Start for the Messages monitor:
read MessageCounter, add it to TotalMessageCounter, reset MessageCounter. -/
def messagesMonitorSample (s : StoreState) : StoreState :=
  { s with totalMessageCounter := s.totalMessageCounter + s.messageCounter,
           messageCounter := 0 }

/-- GetStatistics().TotalMessages: the session baseline existingMessageCount
plus TotalMessageCounter.Count(). -/
def GetStatistics (existingMessageCount : Nat) (s : StoreState) : Nat :=
  existingMessageCount + s.totalMessageCounter


/-! ## Server facade (package server: Run, Shutdown, CheckStatus, Delete, HashName) -/

/-- Mutable lifecycle fields of the server facade, with the side effects of
Run and Shutdown recorded as booleans (onion-service construction, metrics
start/stop, message-store opening, token-service construction, listener
goroutine spawning, listener shutdown calls). -/
structure FacadeState where
  running : Bool
  onionServiceStopped : Bool
  tokenServiceStopped : Bool
  serviceInitialized : Bool
  metricsStarted : Bool
  storeOpened : Bool
  existingMessageCount : Nat
  tokenServiceInitialized : Bool
  listenersSpawned : Bool
  serviceShutdownCalled : Bool
  tokenServiceShutdownCalled : Bool
  metricsStopped : Bool
deriving DecidableEq

/-- Run: under the write lock, return nil immediately if already running;
otherwise construct the onion service, start the metrics monitors, open the
message store (propagating its error), record the session baseline count,
construct the token service, spawn both listener goroutines, and set running.
The message-store outcome is passed in as storeInit: none models an
InitializeSqliteMessageStore error, some n a store holding n messages. -/
def Run (s : FacadeState) (storeInit : Option Nat) : FacadeState × Option String :=
  if s.running then (s, none)
  else
    let s1 : FacadeState := { s with serviceInitialized := true, metricsStarted := true }
    match storeInit with
    | none => (s1, some "could not open database")
    | some msgCount =>
        ({ s1 with storeOpened := true, existingMessageCount := msgCount,
                   tokenServiceInitialized := true, listenersSpawned := true,
                   running := true }, none)

/-- Shutdown: under the write lock, shut down both listeners, stop the metrics
monitors, and then perform the assignment the source executes on the running
flag, which stores true. -/
def Shutdown (s : FacadeState) : FacadeState :=
  { s with serviceShutdownCalled := true, tokenServiceShutdownCalled := true,
           metricsStopped := true, running := true }

/-- CheckStatus: report the running flag, together with an error when either
listener goroutine has exited. -/
def CheckStatus (s : FacadeState) : Bool × Option String :=
  if s.onionServiceStopped || s.tokenServiceStopped then
    (s.running, some "one of more server components are down")
  else (s.running, none)

/-- In-memory fields of Config that Delete and CheckPassword consult. -/
structure ConfigState where
  Encrypted : Bool
  key : List Nat
deriving DecidableEq

/-- On-disk state under the config directory: the SALT file contents (none if
absent or unreadable) and whether the directory is present. -/
structure ConfigDirState where
  saltFile : Option (List Nat)
  present : Bool
deriving DecidableEq

/-- CheckPassword: read the SALT file (returning false if that fails),
re-derive a key from the candidate password with v1.CreateKey, and compare it
to the in-memory key.  createKey abstracts the external v1.CreateKey. -/
def CheckPassword (createKey : String → List Nat → List Nat)
    (config : ConfigState) (dir : ConfigDirState) (checkpass : String) : Bool :=
  match dir.saltFile with
  | none => false
  | some salt => createKey checkpass salt == config.key

/-- Delete: for an encrypted config, fail unless CheckPassword accepts the
password; otherwise recursively remove the config directory (os.RemoveAll). -/
def Delete (createKey : String → List Nat → List Nat)
    (config : ConfigState) (dir : ConfigDirState) (password : String) :
    ConfigDirState × Option String :=
  if config.Encrypted && !(CheckPassword createKey config dir password) then
    (dir, some "Cannot delete server, passwords do not match")
  else
    ({ saltFile := none, present := false }, none)

/-- The fixed small-animal petname dictionary (verbatim from the source). -/
def namesSmall : List String :=
  ["ox", "ant", "ape", "asp", "bat", "bee", "boa", "bug", "cat", "cod", "cow", "cub", "doe",
  "dog", "eel", "eft", "elf", "elk", "emu", "ewe", "fly", "fox", "gar", "gnu", "hen", "hog",
  "imp", "jay", "kid", "kit", "koi", "lab", "man", "owl", "pig", "pug", "pup", "ram", "rat",
  "ray", "yak", "bass", "bear", "bird", "boar", "buck", "bull", "calf", "chow", "clam",
  "colt", "crab", "crow", "dane", "deer", "dodo", "dory", "dove", "drum", "duck", "fawn",
  "fish", "flea", "foal", "fowl", "frog", "gnat", "goat", "grub", "gull", "hare", "hawk",
  "ibex", "joey", "kite", "kiwi", "lamb", "lark", "lion", "loon", "lynx", "mako", "mink",
  "mite", "mole", "moth", "mule", "mutt", "newt", "orca", "oryx", "pika", "pony", "puma",
  "seal", "shad", "slug", "sole", "stag", "stud", "swan", "tahr", "teal", "tick", "toad",
  "tuna", "wasp", "wolf", "worm", "wren", "yeti", "adder", "akita", "alien", "aphid", "bison",
  "boxer", "bream", "bunny", "burro", "camel", "chimp", "civet", "cobra", "coral", "corgi",
  "crane", "dingo", "drake", "eagle", "egret", "filly", "finch", "gator", "gecko", "ghost",
  "ghoul", "goose", "guppy", "heron", "hippo", "horse", "hound", "husky", "hyena", "koala",
  "krill", "leech", "lemur", "liger", "llama", "louse", "macaw", "midge", "molly", "moose",
  "moray", "mouse", "panda", "perch", "prawn", "quail", "racer", "raven", "rhino", "robin",
  "satyr", "shark", "sheep", "shrew", "skink", "skunk", "sloth", "snail", "snake", "snipe",
  "squid", "stork", "swift", "swine", "tapir", "tetra", "tiger", "troll", "trout", "viper",
  "wahoo", "whale", "zebra", "alpaca", "amoeba", "baboon", "badger", "beagle", "bedbug",
  "beetle", "bengal", "bobcat", "caiman", "cattle", "cicada", "collie", "condor", "cougar",
  "coyote", "dassie", "donkey", "dragon", "earwig", "falcon", "feline", "ferret", "gannet",
  "gibbon", "glider", "goblin", "gopher", "grouse", "guinea", "hermit", "hornet", "iguana",
  "impala", "insect", "jackal", "jaguar", "jennet", "kitten", "kodiak", "lizard", "locust",
  "maggot", "magpie", "mammal", "mantis", "marlin", "marmot", "marten", "martin", "mayfly",
  "minnow", "monkey", "mullet", "muskox", "ocelot", "oriole", "osprey", "oyster", "parrot",
  "pigeon", "piglet", "poodle", "possum", "python", "quagga", "rabbit", "raptor", "rodent",
  "roughy", "salmon", "sawfly", "serval", "shiner", "shrimp", "spider", "sponge", "tarpon",
  "thrush", "tomcat", "toucan", "turkey", "turtle", "urchin", "vervet", "walrus", "weasel",
  "weevil", "wombat", "anchovy", "anemone", "bluejay", "buffalo", "bulldog", "buzzard",
  "caribou", "catfish", "chamois", "cheetah", "chicken", "chigger", "cowbird", "crappie",
  "crawdad", "cricket", "dogfish", "dolphin", "firefly", "garfish", "gazelle", "gelding",
  "giraffe", "gobbler", "gorilla", "goshawk", "grackle", "griffon", "grizzly", "grouper",
  "haddock", "hagfish", "halibut", "hamster", "herring", "jackass", "javelin", "jawfish",
  "jaybird", "katydid", "ladybug", "lamprey", "lemming", "leopard", "lioness", "lobster",
  "macaque", "mallard", "mammoth", "manatee", "mastiff", "meerkat", "mollusk", "monarch",
  "mongrel", "monitor", "monster", "mudfish", "muskrat", "mustang", "narwhal", "oarfish",
  "octopus", "opossum", "ostrich", "panther", "peacock", "pegasus", "pelican", "penguin",
  "phoenix", "piranha", "polecat", "primate", "quetzal", "raccoon", "rattler", "redbird",
  "redfish", "reptile", "rooster", "sawfish", "sculpin", "seagull", "skylark", "snapper",
  "spaniel", "sparrow", "sunbeam", "sunbird", "sunfish", "tadpole", "termite", "terrier",
  "unicorn", "vulture", "wallaby", "walleye", "warthog", "whippet", "wildcat", "aardvark",
  "airedale", "albacore", "anteater", "antelope", "arachnid", "barnacle", "basilisk",
  "blowfish", "bluebird", "bluegill", "bonefish", "bullfrog", "cardinal", "chipmunk",
  "cockatoo", "crayfish", "dinosaur", "doberman", "duckling", "elephant", "escargot",
  "flamingo", "flounder", "foxhound", "glowworm", "goldfish", "grubworm", "hedgehog",
  "honeybee", "hookworm", "humpback", "kangaroo", "killdeer", "kingfish", "labrador",
  "lacewing", "ladybird", "lionfish", "longhorn", "mackerel", "malamute", "marmoset",
  "mastodon", "moccasin", "mongoose", "monkfish", "mosquito", "pangolin", "parakeet",
  "pheasant", "pipefish", "platypus", "polliwog", "porpoise", "reindeer", "ringtail",
  "sailfish", "scorpion", "seahorse", "seasnail", "sheepdog", "shepherd", "silkworm",
  "squirrel", "stallion", "starfish", "starling", "stingray", "stinkbug", "sturgeon",
  "terrapin", "titmouse", "tortoise", "treefrog", "werewolf", "woodcock"]

/-- bigEndianUint32: binary.BigEndian.Uint32 over a four-byte slice. -/
def bigEndianUint32 (bytes : List Nat) : Nat :=
  bytes.getD 0 0 * 16777216 + bytes.getD 1 0 * 65536 + bytes.getD 2 0 * 256 + bytes.getD 3 0

/-- HashName: for i = 0..7, take the 4-byte big-endian integer at offset 4*i of
the public key, reduce it modulo the dictionary size to pick a word, collect
the words in order and join them with a dash. -/
def HashName (publicKey : List Nat) : String :=
  let words := (List.range 8).foldl
    (fun ws i =>
      ws ++ [namesSmall.getD
        (bigEndianUint32 ((publicKey.drop (i * 4)).take 4) % namesSmall.length) ""])
    []
  String.intercalate "-" words

/-! ## Metrics ring (metrics/monitors.go) -/

/-- MonitorAccumulation: Cumulative values sum over time, Average values
average over time. -/
inductive MonitorAccumulation where
  | Cumulative
  | Average
deriving DecidableEq

/-- The descending index loop of rotateAndAccumulate: for i from the top index
down to 1, array[i] = array[i-1], and the moved value is added to the running
total.  Float64 values are idealised as rationals. -/
def rotateLoop : List ℚ → Nat → ℚ → List ℚ × ℚ
  | array, 0, total => (array, total)
  | array, i + 1, total =>
      let v := array.getD i 0
      rotateLoop (array.set (i + 1) v) i (total + v)

/-- rotateAndAccumulate: run the shift loop from index len-1, write newVal at
index 0, add it to the running total, and return the total (Cumulative) or the
total divided by the ring length (Average), together with the updated ring. -/
def rotateAndAccumulate (array : List ℚ) (newVal : ℚ) (acc : MonitorAccumulation) :
    List ℚ × ℚ :=
  let p := rotateLoop array (array.length - 1) 0
  let newArray := p.1.set 0 newVal
  let total := p.2 + newVal
  (newArray,
   if acc = MonitorAccumulation.Cumulative then total else total / (array.length : ℚ))

/-- accumulate: fold a ring into its sum, or its mean for Average mode. -/
def accumulate (array : List ℚ) (acc : MonitorAccumulation) : ℚ :=
  let total := array.foldl (fun t x => t + x) 0
  if acc = MonitorAccumulation.Cumulative then total else total / (array.length : ℚ)

/-! ## Concrete fixtures used by the witness theorems -/

/-- A one-row store used to witness the unknown-signature fallback. -/
def storeExA : StoreState :=
  { rows := [{ id := 1, sigText := base64StdEncode [5], ctText := base64StdEncode [6] }],
    nextId := 2, messageCounter := 0, totalMessageCounter := 0 }

/-- A one-row store used to witness the empty-signature drop. -/
def storeExB : StoreState :=
  { rows := [{ id := 1, sigText := base64StdEncode [9], ctText := base64StdEncode [8] }],
    nextId := 2, messageCounter := 3, totalMessageCounter := 4 }

/-- An empty store used to witness the duplicate-signature scenario. -/
def storeExC : StoreState :=
  { rows := [], nextId := 1, messageCounter := 0, totalMessageCounter := 0 }

/-- A one-row store used to witness the dropped-message counting. -/
def storeExD : StoreState :=
  { rows := [{ id := 1, sigText := base64StdEncode [4], ctText := base64StdEncode [4] }],
    nextId := 2, messageCounter := 1, totalMessageCounter := 2 }

/-- A facade in the Running state used to witness Run idempotence. -/
def facadeRunningEx : FacadeState :=
  { running := true, onionServiceStopped := false, tokenServiceStopped := false,
    serviceInitialized := true, metricsStarted := true, storeOpened := true,
    existingMessageCount := 3, tokenServiceInitialized := true, listenersSpawned := true,
    serviceShutdownCalled := false, tokenServiceShutdownCalled := false,
    metricsStopped := false }

/-- A toy key-derivation function used to witness the Delete password check. -/
def createKeyEx : String → List Nat → List Nat := fun _ salt => salt

/-- An encrypted config whose in-memory key matches salt [9] under createKeyEx. -/
def configExEnc : ConfigState := { Encrypted := true, key := [9] }

/-- A config directory whose salt re-derives the in-memory key. -/
def dirExMatch : ConfigDirState := { saltFile := some [9], present := true }

/-- A config directory whose salt re-derives a different key. -/
def dirExMismatch : ConfigDirState := { saltFile := some [8], present := true }

/-- A 32-byte public key used to witness HashName. -/
def pkEx : List Nat := List.range 32

/-! ## Supporting lemmas -/

theorem b64EncodeSextets_le (l : List Nat) (hv : ∀ b ∈ l, b < 256) :
    ∀ s ∈ b64EncodeSextets l, s ≤ 64 := by
  induction l using b64EncodeSextets.induct with
  | case1 a b c rest ih =>
      have ha : a < 256 := hv a (by simp)
      have hb : b < 256 := hv b (by simp)
      have hc : c < 256 := hv c (by simp)
      intro s hs
      simp only [b64EncodeSextets, List.mem_cons] at hs
      rcases hs with rfl | rfl | rfl | rfl | hs
      · omega
      · omega
      · omega
      · omega
      · exact ih (fun x hx => hv x (by simp [hx])) s hs
  | case2 a b =>
      have ha : a < 256 := hv a (by simp)
      have hb : b < 256 := hv b (by simp)
      intro s hs
      simp only [b64EncodeSextets, List.mem_cons, List.not_mem_nil] at hs
      rcases hs with rfl | rfl | rfl | rfl | h
      · omega
      · omega
      · omega
      · omega
      · exact absurd h (by simp)
  | case3 a =>
      have ha : a < 256 := hv a (by simp)
      intro s hs
      simp only [b64EncodeSextets, List.mem_cons, List.not_mem_nil] at hs
      rcases hs with rfl | rfl | rfl | rfl | h
      · omega
      · omega
      · omega
      · omega
      · exact absurd h (by simp)
  | case4 => intro s hs; simp [b64EncodeSextets] at hs

theorem b64DecodeSextets_b64EncodeSextets (l : List Nat) (h : ∀ b ∈ l, b < 256) :
    b64DecodeSextets (b64EncodeSextets l) = l := by
  induction l using b64EncodeSextets.induct with
  | case1 a b c rest ih =>
      have ha : a < 256 := h a (by simp)
      have hb : b < 256 := h b (by simp)
      have hc : c < 256 := h c (by simp)
      have hrest : ∀ x ∈ rest, x < 256 := fun x hx => h x (by simp [hx])
      simp only [b64EncodeSextets, b64DecodeSextets]
      split
      · next hpad => exfalso; omega
      · next hpad =>
          rw [ih hrest]
          simp only [List.cons.injEq]
          refine ⟨by omega, by omega, by omega, trivial⟩
  | case2 a b =>
      have ha : a < 256 := h a (by simp)
      have hb : b < 256 := h b (by simp)
      simp only [b64EncodeSextets, b64DecodeSextets, if_true]
      split
      · next hpad => exfalso; omega
      · next hpad =>
          simp only [List.cons.injEq]
          refine ⟨by omega, by omega, trivial⟩
  | case3 a =>
      have ha : a < 256 := h a (by simp)
      simp only [b64EncodeSextets, b64DecodeSextets, if_true]
      simp only [List.cons.injEq]
      refine ⟨by omega, trivial⟩
  | case4 => rfl

theorem b64Inv_b64Chr (n : Nat) (h : n ≤ 64) : b64Inv (b64Chr n) = n := by
  interval_cases n <;> rfl

theorem base64StdDecode_base64StdEncode (l : List Nat) (h : ∀ b ∈ l, b < 256) :
    base64StdDecode (base64StdEncode l) = l := by
  unfold base64StdDecode base64StdEncode
  rw [List.map_map]
  have heq : (b64EncodeSextets l).map (b64Inv ∘ b64Chr) = (b64EncodeSextets l).map id :=
    List.map_congr_left fun s hs => b64Inv_b64Chr s (b64EncodeSextets_le l h s hs)
  rw [heq, List.map_id]
  exact b64DecodeSextets_b64EncodeSextets l h

/-! ## Claim theorems -/

/-- C1: for every non-empty signature, if the suffix-query result set (the
stored rows whose primary key is at least the key of the row carrying that
signature) is empty — the signature is unknown or was purged — then
FetchMessagesFrom returns exactly the list FetchMessages returns (full-sync
fallback). -/
theorem FetchMessagesFrom_unknown_signature_full_sync
    (s : StoreState) (signature : List Nat) (hne : signature ≠ [])
    (hempty : suffixRows s (base64StdEncode signature) = []) :
    FetchMessagesFrom s signature = FetchMessages s := by
  unfold FetchMessagesFrom
  rw [if_neg fun h => hne (List.length_eq_zero.mp h), hempty]
  simp [compileRows]

/-- Witness for C1 at a one-row store and a signature it does not contain. -/
theorem FetchMessagesFrom_unknown_signature_full_sync_witness :
    (([1, 2] : List Nat) ≠ []) ∧
    suffixRows storeExA (base64StdEncode [1, 2]) = [] ∧
    FetchMessagesFrom storeExA [1, 2] = FetchMessages storeExA :=
  ⟨by decide, by decide,
   FetchMessagesFrom_unknown_signature_full_sync storeExA [1, 2] (by decide) (by decide)⟩

/-- C2: FetchMessagesFrom applied to an empty signature returns exactly the
list FetchMessages returns, for every store state. -/
theorem FetchMessagesFrom_empty_signature_fetch_all (s : StoreState) :
    FetchMessagesFrom s [] = FetchMessages s := rfl

/-- C3: a message with an empty signature is silently dropped: the call
returns (without an error path) with the stored rows and MessagesCount
unchanged. -/
theorem AddMessage_empty_signature_dropped (s : StoreState)
    (m : EncryptedGroupMessage) (h : m.Signature = []) :
    (AddMessage s m).rows = s.rows ∧
    MessagesCount (AddMessage s m) = MessagesCount s := by
  unfold AddMessage MessagesCount
  simp [h]

/-- Witness for C3 at a one-row store. -/
theorem AddMessage_empty_signature_dropped_witness :
    (EncryptedGroupMessage.mk [] [7]).Signature = [] ∧
    ((AddMessage storeExB (EncryptedGroupMessage.mk [] [7])).rows = storeExB.rows ∧
     MessagesCount (AddMessage storeExB (EncryptedGroupMessage.mk [] [7])) =
       MessagesCount storeExB) :=
  ⟨rfl, AddMessage_empty_signature_dropped storeExB (EncryptedGroupMessage.mk [] [7]) rfl⟩

/-- C10: AddMessage invokes the metrics callback before validating the
signature: a dropped empty-signature message still increments the session
MessageCounter, after the Messages monitor samples GetStatistics rises by one
although nothing was stored, and starting from the empty store the metrics
total strictly exceeds the persisted message count. -/
theorem AddMessage_counter_before_validation (s : StoreState)
    (m : EncryptedGroupMessage) (existing : Nat) (h : m.Signature = []) :
    (AddMessage s m).rows = s.rows ∧
    (AddMessage s m).messageCounter = s.messageCounter + 1 ∧
    GetStatistics existing (messagesMonitorSample (AddMessage s m)) =
      GetStatistics existing (messagesMonitorSample s) + 1 ∧
    MessagesCount (AddMessage s m) = MessagesCount s ∧
    GetStatistics 0 (messagesMonitorSample (AddMessage storeExC m)) >
      MessagesCount (AddMessage storeExC m) := by
  unfold AddMessage MessagesCount GetStatistics messagesMonitorSample storeExC
  simp [h]
  omega

/-- Witness for C10 at a one-row store. -/
theorem AddMessage_counter_before_validation_witness :
    (EncryptedGroupMessage.mk [] [3]).Signature = [] ∧
    ((AddMessage storeExD (EncryptedGroupMessage.mk [] [3])).rows = storeExD.rows ∧
     (AddMessage storeExD (EncryptedGroupMessage.mk [] [3])).messageCounter =
       storeExD.messageCounter + 1 ∧
     GetStatistics 7 (messagesMonitorSample (AddMessage storeExD (EncryptedGroupMessage.mk [] [3]))) =
       GetStatistics 7 (messagesMonitorSample storeExD) + 1 ∧
     MessagesCount (AddMessage storeExD (EncryptedGroupMessage.mk [] [3])) =
       MessagesCount storeExD ∧
     GetStatistics 0 (messagesMonitorSample (AddMessage storeExC (EncryptedGroupMessage.mk [] [3]))) >
       MessagesCount (AddMessage storeExC (EncryptedGroupMessage.mk [] [3]))) :=
  ⟨rfl, AddMessage_counter_before_validation storeExD (EncryptedGroupMessage.mk [] [3]) 7 rfl⟩

/-- C5: Run is idempotent: a second call while the server is running returns
success (a nil error) and leaves every facade field unchanged, performing no
side effects. -/
theorem Run_idempotent_while_running (s : FacadeState) (storeInit : Option Nat)
    (h : s.running = true) :
    Run s storeInit = (s, none) := by
  unfold Run
  rw [if_pos h]

/-- Witness for C5 at a concrete running facade. -/
theorem Run_idempotent_while_running_witness :
    facadeRunningEx.running = true ∧ Run facadeRunningEx (some 3) = (facadeRunningEx, none) :=
  ⟨rfl, Run_idempotent_while_running facadeRunningEx (some 3) rfl⟩

/-- C6 (code bug): Shutdown does stop both listeners and the metrics monitors,
but it then stores true into the running flag, so the flag remains set and
CheckStatus still reports the server as running after Shutdown. -/
theorem Shutdown_sets_running_true (s : FacadeState) :
    (Shutdown s).serviceShutdownCalled = true ∧
    (Shutdown s).tokenServiceShutdownCalled = true ∧
    (Shutdown s).metricsStopped = true ∧
    (Shutdown s).running = true ∧
    (CheckStatus (Shutdown s)).1 = true := by
  refine ⟨rfl, rfl, rfl, rfl, ?_⟩
  unfold CheckStatus Shutdown
  split <;> rfl

/-- C7: Delete on an encrypted server re-derives the key from the salt file;
on mismatch it fails with the bad-password error and leaves the config
directory untouched, on match it removes the config directory recursively. -/
theorem Delete_encrypted_password_check
    (createKey : String → List Nat → List Nat) (config : ConfigState)
    (dir : ConfigDirState) (password : String) (salt : List Nat)
    (hEnc : config.Encrypted = true) (hSalt : dir.saltFile = some salt) :
    (createKey password salt ≠ config.key →
      Delete createKey config dir password =
        (dir, some "Cannot delete server, passwords do not match")) ∧
    (createKey password salt = config.key →
      Delete createKey config dir password =
        ({ saltFile := none, present := false }, none)) := by
  unfold Delete CheckPassword
  rw [hEnc, hSalt]
  constructor
  · intro hne
    have hbeq : (createKey password salt == config.key) = false :=
      beq_eq_false_iff_ne.mpr hne
    simp [hbeq]
  · intro heq
    have hbeq : (createKey password salt == config.key) = true := beq_iff_eq.mpr heq
    simp [hbeq]

/-- Witness for C7: both the mismatch branch and the match branch at concrete
configs. -/
theorem Delete_encrypted_password_check_witness :
    Delete createKeyEx configExEnc dirExMismatch "pw" =
      (dirExMismatch, some "Cannot delete server, passwords do not match") ∧
    Delete createKeyEx configExEnc dirExMatch "pw" =
      ({ saltFile := none, present := false }, none) :=
  ⟨(Delete_encrypted_password_check createKeyEx configExEnc dirExMismatch "pw" [8]
      rfl rfl).1 (by decide),
   (Delete_encrypted_password_check createKeyEx configExEnc dirExMatch "pw" [9]
      rfl rfl).2 (by decide)⟩


/-- Loop invariant of the descending shift loop: running it from index j
moves entries 0..j-1 up by one slot, leaves entry 0 and the tail beyond j
untouched, and accumulates the sum of the moved entries. -/
theorem rotateLoop_spec (j : Nat) : ∀ (l : List ℚ) (t : ℚ), j < l.length →
    rotateLoop l j t = (l.take 1 ++ l.take j ++ l.drop (j + 1), t + (l.take j).sum) := by
  induction j with
  | zero =>
      intro l t hj
      simp only [rotateLoop, List.take_zero, List.append_nil, List.sum_nil, add_zero]
      rw [List.take_append_drop]
  | succ j ih =>
      intro l t hj
      have hjl : j < l.length := by omega
      have hgetD : l.getD j 0 = l[j] := by
        simp [List.getD_eq_getElem?_getD, List.getElem?_eq_getElem hjl]
      have hlenTake : (l.take (j + 1)).length = j + 1 := by
        simp [List.length_take]; omega
      have hset : l.set (j + 1) (l[j]) = l.take (j + 1) ++ l[j] :: l.drop (j + 2) := by
        rw [List.set_eq_take_append_cons_drop, if_pos hj]
      have hlen2 : j < (l.set (j + 1) (l.getD j 0)).length := by
        simp [List.length_set]; omega
      unfold rotateLoop
      rw [ih _ _ hlen2]
      rw [hgetD, hset]
      have htake1 : (l.take (j + 1) ++ l[j] :: l.drop (j + 2)).take 1 = l.take 1 := by
        rw [List.take_append_of_le_length (by omega), List.take_take]
        congr 1
        omega
      have htakej : (l.take (j + 1) ++ l[j] :: l.drop (j + 2)).take j = l.take j := by
        rw [List.take_append_of_le_length (by omega), List.take_take]
        congr 1
        omega
      have hdropj : (l.take (j + 1) ++ l[j] :: l.drop (j + 2)).drop (j + 1) =
          l[j] :: l.drop (j + 2) := List.drop_left' hlenTake
      rw [htake1, htakej, hdropj]
      have htsucc : l.take (j + 1) = l.take j ++ [l[j]] := by
        rw [List.take_succ, List.getElem?_eq_getElem hjl, Option.toList_some]
      simp only [Prod.mk.injEq]
      refine ⟨by rw [htsucc]; simp only [List.append_assoc, List.singleton_append], ?_⟩
      rw [htsucc]
      rw [List.sum_append, List.sum_cons, List.sum_nil]
      ring

/-- C9: for a non-empty ring, rotateAndAccumulate produces the ring shifted
right by one slot with the oldest (last) entry dropped and newVal written at
index 0, and returns the sum of the resulting ring in Cumulative mode and its
arithmetic mean in Average mode. -/
theorem rotateAndAccumulate_shift_and_mode (array : List ℚ) (newVal : ℚ)
    (acc : MonitorAccumulation) (hne : array ≠ []) :
    (rotateAndAccumulate array newVal acc).1 = newVal :: array.dropLast ∧
    (rotateAndAccumulate array newVal acc).2 =
      (if acc = MonitorAccumulation.Cumulative
       then (newVal :: array.dropLast).sum
       else (newVal :: array.dropLast).sum / ((newVal :: array.dropLast).length : ℚ)) := by
  have hpos : 0 < array.length := List.length_pos.mpr hne
  have hlt : array.length - 1 < array.length := by omega
  unfold rotateAndAccumulate
  rw [rotateLoop_spec _ _ _ hlt]
  have hdl : array.take (array.length - 1) = array.dropLast :=
    (List.dropLast_eq_take array).symm
  have hdrop : array.drop (array.length - 1 + 1) = [] := by
    have : array.length - 1 + 1 = array.length := by omega
    rw [this, List.drop_length]
  rw [hdl, hdrop, List.append_nil]
  rcases array with _ | ⟨hd, tl⟩
  · exact absurd rfl hne
  · simp only [List.take_succ_cons, List.take_zero]
    constructor
    · simp
    · have hlen : (newVal :: (hd :: tl).dropLast).length = tl.length + 1 := by
        simp [List.length_dropLast]
      rw [hlen]
      cases acc with
      | Cumulative =>
          simp [List.sum_cons]
          ring
      | Average =>
          simp [List.sum_cons, List.length_cons]
          ring_nf

/-- Witness for C9 at a concrete three-element ring. -/
theorem rotateAndAccumulate_shift_and_mode_witness :
    (([1, 2, 3] : List ℚ) ≠ []) ∧
    ((rotateAndAccumulate [1, 2, 3] 4 MonitorAccumulation.Cumulative).1 =
        4 :: ([1, 2, 3] : List ℚ).dropLast ∧
     (rotateAndAccumulate [1, 2, 3] 4 MonitorAccumulation.Cumulative).2 =
       (if MonitorAccumulation.Cumulative = MonitorAccumulation.Cumulative
        then ((4 : ℚ) :: ([1, 2, 3] : List ℚ).dropLast).sum
        else ((4 : ℚ) :: ([1, 2, 3] : List ℚ).dropLast).sum /
          (((4 : ℚ) :: ([1, 2, 3] : List ℚ).dropLast).length : ℚ))) :=
  ⟨List.cons_ne_nil 1 [2, 3],
   rotateAndAccumulate_shift_and_mode [1, 2, 3] 4 MonitorAccumulation.Cumulative
     (List.cons_ne_nil 1 [2, 3])⟩

/-- Appending one element per step from the left is the same as mapping. -/
theorem foldl_append_singleton_eq_map {α β : Type} (f : α → β) (l : List α) :
    ∀ init : List β, l.foldl (fun ws i => ws ++ [f i]) init = init ++ l.map f := by
  induction l with
  | nil => intro init; simp
  | cons x xs ih => intro init; simp [ih]

/-- C8: HashName is the dash-join of the eight dictionary words selected by
the eight 4-byte big-endian integers of the public key, each reduced modulo
the dictionary size; it depends only on the public key, so equal keys yield
equal names. -/
theorem HashName_eight_word_petname (publicKey : List Nat)
    (hlen : 32 ≤ publicKey.length) :
    HashName publicKey =
      String.intercalate "-" ((List.range 8).map fun i =>
        namesSmall.getD
          (bigEndianUint32 ((publicKey.drop (i * 4)).take 4) % namesSmall.length) "") ∧
    ∀ publicKey2 : List Nat, publicKey = publicKey2 →
      HashName publicKey = HashName publicKey2 := by
  constructor
  · unfold HashName
    rw [foldl_append_singleton_eq_map, List.nil_append]
  · intro pk2 h
    rw [h]

/-- Witness for C8 at a concrete 32-byte key. -/
theorem HashName_eight_word_petname_witness :
    HashName pkEx =
      String.intercalate "-" ((List.range 8).map fun i =>
        namesSmall.getD
          (bigEndianUint32 ((pkEx.drop (i * 4)).take 4) % namesSmall.length) "") :=
  (HashName_eight_word_petname pkEx (by decide)).1

/-- C4: posting the same non-empty signature twice stores only the first
message: the second add leaves the table unchanged, the
distinct-signatures invariant is preserved, MessagesCount rises by exactly
one across the two posts, and the message fetched for that signature carries
the first ciphertext. -/
theorem AddMessage_duplicate_signature_rejected
    (s : StoreState) (A X Y : List Nat) (hA : A ≠ [])
    (hAv : ∀ b ∈ A, b < 256) (hXv : ∀ b ∈ X, b < 256)
    (hwf : ∀ r ∈ s.rows, r.id < s.nextId)
    (hfresh : ∀ r ∈ s.rows, r.sigText ≠ base64StdEncode A)
    (huniq : s.rows.Pairwise fun r1 r2 => r1.sigText ≠ r2.sigText) :
    (AddMessage (AddMessage s ⟨A, X⟩) ⟨A, Y⟩).rows = (AddMessage s ⟨A, X⟩).rows ∧
    ((AddMessage (AddMessage s ⟨A, X⟩) ⟨A, Y⟩).rows.Pairwise
       fun r1 r2 => r1.sigText ≠ r2.sigText) ∧
    MessagesCount (AddMessage (AddMessage s ⟨A, X⟩) ⟨A, Y⟩) = MessagesCount s + 1 ∧
    FetchMessagesFrom (AddMessage (AddMessage s ⟨A, X⟩) ⟨A, Y⟩) A =
      [⟨A, X⟩] := by
  have hlenA : ¬(A.length = 0) := fun h => hA (List.length_eq_zero.mp h)
  have hany1 : (s.rows.any fun r => r.sigText == base64StdEncode A) = false := by
    rw [List.any_eq_false]
    intro r hr hbe
    exact hfresh r hr (by simpa using hbe)
  have h1 : AddMessage s ⟨A, X⟩ =
      { rows := s.rows ++
          [{ id := s.nextId, sigText := base64StdEncode A,
             ctText := base64StdEncode X }],
        nextId := s.nextId + 1, messageCounter := s.messageCounter + 1,
        totalMessageCounter := s.totalMessageCounter } := by
    unfold AddMessage
    simp [hlenA, hany1]
  have h12 : AddMessage (AddMessage s ⟨A, X⟩) ⟨A, Y⟩ =
      { rows := s.rows ++
          [{ id := s.nextId, sigText := base64StdEncode A,
             ctText := base64StdEncode X }],
        nextId := s.nextId + 1, messageCounter := s.messageCounter + 2,
        totalMessageCounter := s.totalMessageCounter } := by
    rw [h1]
    unfold AddMessage
    simp [hlenA]
  have hfind : ((s.rows ++
      [({ id := s.nextId, sigText := base64StdEncode A,
          ctText := base64StdEncode X } : StoredRow)]).find?
        fun r => r.sigText == base64StdEncode A) =
      some ({ id := s.nextId, sigText := base64StdEncode A,
              ctText := base64StdEncode X } : StoredRow) := by
    rw [List.find?_append]
    have hnone : (s.rows.find? fun r => r.sigText == base64StdEncode A) = none :=
      List.find?_eq_none.mpr fun r hr => by simpa using hfresh r hr
    rw [hnone]
    simp
  have hfilter : ((s.rows ++
      [({ id := s.nextId, sigText := base64StdEncode A,
          ctText := base64StdEncode X } : StoredRow)]).filter
        fun r => s.nextId ≤ r.id) =
      [({ id := s.nextId, sigText := base64StdEncode A,
          ctText := base64StdEncode X } : StoredRow)] := by
    rw [List.filter_append]
    have hnil : (s.rows.filter fun r => s.nextId ≤ r.id) = [] := by
      rw [List.filter_eq_nil_iff]
      intro r hr
      have := hwf r hr
      simp
      omega
    rw [hnil]
    simp
  refine ⟨by rw [h12, h1], ?_, ?_, ?_⟩
  · rw [h12]
    refine List.pairwise_append.mpr ⟨huniq, by simp, ?_⟩
    intro a ha b hb
    simp only [List.mem_singleton] at hb
    subst hb
    exact hfresh a ha
  · rw [h12]
    simp [MessagesCount]
  · rw [h12]
    unfold FetchMessagesFrom
    rw [if_neg hlenA]
    have hsfx : suffixRows
        { rows := s.rows ++
            [{ id := s.nextId, sigText := base64StdEncode A,
               ctText := base64StdEncode X }],
          nextId := s.nextId + 1, messageCounter := s.messageCounter + 2,
          totalMessageCounter := s.totalMessageCounter }
        (base64StdEncode A) =
        [({ id := s.nextId, sigText := base64StdEncode A,
            ctText := base64StdEncode X } : StoredRow)] := by
      unfold suffixRows
      simp only [hfind]
      exact hfilter
    rw [hsfx]
    simp [compileRows, base64StdDecode_base64StdEncode A hAv,
          base64StdDecode_base64StdEncode X hXv]

/-- Witness for C4 at the empty store with signature [1] and ciphertexts [2]
and [3]. -/
theorem AddMessage_duplicate_signature_rejected_witness :
    (AddMessage (AddMessage storeExC ⟨[1], [2]⟩) ⟨[1], [3]⟩).rows =
      (AddMessage storeExC ⟨[1], [2]⟩).rows ∧
    ((AddMessage (AddMessage storeExC ⟨[1], [2]⟩) ⟨[1], [3]⟩).rows.Pairwise
       fun r1 r2 => r1.sigText ≠ r2.sigText) ∧
    MessagesCount (AddMessage (AddMessage storeExC ⟨[1], [2]⟩) ⟨[1], [3]⟩) =
      MessagesCount storeExC + 1 ∧
    FetchMessagesFrom (AddMessage (AddMessage storeExC ⟨[1], [2]⟩) ⟨[1], [3]⟩) [1] =
      [⟨[1], [2]⟩] :=
  AddMessage_duplicate_signature_rejected storeExC [1] [2] [3]
    (by decide) (by decide) (by decide)
    (by intro r hr; simp [storeExC] at hr)
    (by intro r hr; simp [storeExC] at hr)
    (by simp [storeExC])


end CwtchServer
